import Mathlib

/-!
# Thermoclock: a shallow embedding of `Thermoclock.ino`

This file models the control loop of the `interfect/thermoclock` Arduino
sketch (`src/Thermoclock.ino`) and proves properties of its button
debouncer, UI mode state machine, clock adjustment, hysteresis heater
decision and status display.

The sketch's global variables become fields of a `Ctl` record; one pass of
`loop()` becomes the function `tick`, which takes the externally sampled
inputs of that pass (raw button levels, raw sensor sample, how far the
external clock source advanced since the last pass) and returns the new
state together with the status word printed on the display that pass.
C `int`s are modelled as `Int`, booleans as `Bool`, the C `double`
arithmetic of `rawToF` as exact rational arithmetic, and `time_t`
(an unsigned 32-bit count of seconds) as `Nat` with wraparound applied by
`adjustTime`.
-/

namespace Thermoclock

/-- The UI state enum of the sketch (`typedef enum State`). -/
inductive State where
  | START
  | ENTER_SET
  | SET_HOUR
  | SET_MINUTE
  | SET_SECOND
deriving DecidableEq

/-- Source constant `const int targetTempMin = 60;`. -/
def targetTempMin : Int := 60

/-- Source constant `const int targetTempMax = 80;`. -/
def targetTempMax : Int := 80

/-- Source constant `const int tempToleranceDown = 2;`. -/
def tempToleranceDown : Int := 2

/-- Source constant `const int tempToleranceUp = 2;`. -/
def tempToleranceUp : Int := 2

/-- Source constant `const int startHour = 8;`. -/
def startHour : Nat := 8

/-- Source constant `const int endHour = 23;`. -/
def endHour : Nat := 23

/-- TimeLib `hour(t)`: hour of day of a `time_t` count of seconds. -/
def hour (t : Nat) : Nat := t / 3600 % 24

/-- TimeLib `minute(t)`: minute within the hour. -/
def minute (t : Nat) : Nat := t / 60 % 60

/-- TimeLib `second(t)`: second within the minute. -/
def second (t : Nat) : Nat := t % 60

/-- TimeLib `adjustTime(delta)`: adds a signed delta to the unsigned
32-bit system time, with the wraparound of C unsigned arithmetic. -/
def adjustTime (t : Nat) (delta : Int) : Nat :=
  (((t : Int) + delta) % (2 ^ 32)).toNat

/-- Source function `rawToF`: `round(0.1674 * raw - 45.19 - 3)`, the two-point linear
calibration with the fudge offset, modelled in exact rational
arithmetic. -/
def rawToF (raw : Int) : Int := round ((0.1674 : ℚ) * raw - 45.19 - 3)

/-- Source function `shouldBeArmed(t)`: `hour(t) >= startHour && hour(t) < endHour`. -/
def shouldBeArmed (t : Nat) : Bool :=
  decide (startHour ≤ hour t) && decide (hour t < endHour)

/-- Source function `isTooCold(rawTemp)`: `rawToF(rawTemp) <= targetTempF - tempToleranceDown`.
The global `targetTempF` is passed explicitly. -/
def isTooCold (rawTemp target : Int) : Bool :=
  decide (rawToF rawTemp ≤ target - tempToleranceDown)

/-- Source function `isTooHot(rawTemp)`: `rawToF(rawTemp) >= targetTempF + tempToleranceUp`.
The global `targetTempF` is passed explicitly. -/
def isTooHot (rawTemp target : Int) : Bool :=
  decide (target + tempToleranceUp ≤ rawToF rawTemp)

/-- The sketch's global mutable state: the mode (`currentState`), the
setpoint (`targetTempF`), the debouncer arrays (`buttonLastState`,
`buttonNewState`), the heater relay flag (`switchState`) and the
TimeLib system time (`clock`, the value `now()` would report). -/
structure Ctl where
  currentState : State
  targetTempF : Int
  buttonLast0 : Bool
  buttonLast1 : Bool
  buttonNew0 : Bool
  buttonNew1 : Bool
  switchState : Bool
  clock : Nat
deriving DecidableEq

/-- The externally sampled inputs of one pass of `loop()`: the two raw
button levels (polarity-corrected: `true` = pressed), the raw analog
temperature sample, and the seconds by which the external clock source
advanced the system time since the previous pass. -/
structure Input where
  btn0 : Bool
  btn1 : Bool
  rawTemp : Int
  advance : Nat
deriving DecidableEq

/-- Source array access `buttonNewState[n]`. -/
def buttonNew (c : Ctl) : Nat → Bool
  | 0 => c.buttonNew0
  | _ => c.buttonNew1

/-- Source array access `buttonLastState[n]`. -/
def buttonLast (c : Ctl) : Nat → Bool
  | 0 => c.buttonLast0
  | _ => c.buttonLast1

/-- Source function `updateButtonStates()`: shift `buttonNewState` into `buttonLastState`,
then store the fresh samples. -/
def updateButtonStates (c : Ctl) (b0 b1 : Bool) : Ctl :=
  { c with
    buttonLast0 := c.buttonNew0
    buttonLast1 := c.buttonNew1
    buttonNew0 := b0
    buttonNew1 := b1 }

/-- Source function `singleButtonDown(n)`: `buttonNewState[n] && !buttonLastState[n]`. -/
def singleButtonDown (c : Ctl) (n : Nat) : Bool :=
  buttonNew c n && !(buttonLast c n)

/-- Source function `singleButtonUp(n)`: `!buttonNewState[n] && buttonLastState[n]`. -/
def singleButtonUp (c : Ctl) (n : Nat) : Bool :=
  !(buttonNew c n) && buttonLast c n

/-- Source function `buttonIsDown(n)`: `buttonNewState[n]`. -/
def buttonIsDown (c : Ctl) (n : Nat) : Bool := buttonNew c n

/-- The `if (singleButtonDown(0))` block of `loop()`: in `STATE_START`,
a left press while the right button is held enters `STATE_ENTER_SET`. -/
def handleLeftDown (c : Ctl) : Ctl :=
  if singleButtonDown c 0 then
    match c.currentState with
    | State.START =>
        if buttonIsDown c 1 then { c with currentState := State.ENTER_SET } else c
    | _ => c
  else c

/-- The `if (singleButtonUp(0))` block of `loop()`: raise the setpoint in
`STATE_START`, leave `STATE_ENTER_SET` once both buttons are up, and
advance through the clock-setting states. -/
def handleLeftUp (c : Ctl) : Ctl :=
  if singleButtonUp c 0 then
    match c.currentState with
    | State.START =>
        if c.targetTempF < targetTempMax then
          { c with targetTempF := c.targetTempF + 1 }
        else c
    | State.ENTER_SET =>
        if !(buttonIsDown c 1) then { c with currentState := State.SET_HOUR } else c
    | State.SET_HOUR => { c with currentState := State.SET_MINUTE }
    | State.SET_MINUTE => { c with currentState := State.SET_SECOND }
    | State.SET_SECOND => { c with currentState := State.START }
  else c

/-- The `if (singleButtonDown(1))` block of `loop()`: in `STATE_START`,
a right press while the left button is held enters `STATE_ENTER_SET`. -/
def handleRightDown (c : Ctl) : Ctl :=
  if singleButtonDown c 1 then
    match c.currentState with
    | State.START =>
        if buttonIsDown c 0 then { c with currentState := State.ENTER_SET } else c
    | _ => c
  else c

/-- The `if (singleButtonUp(1))` block of `loop()`: lower the setpoint in
`STATE_START`, leave `STATE_ENTER_SET` once both buttons are up, and
adjust the clock in the `SET_*` states. `t` is the local time variable
read earlier in the pass, used for the rollover tests. -/
def handleRightUp (c : Ctl) (t : Nat) : Ctl :=
  if singleButtonUp c 1 then
    match c.currentState with
    | State.START =>
        if targetTempMin < c.targetTempF then
          { c with targetTempF := c.targetTempF - 1 }
        else c
    | State.ENTER_SET =>
        if !(buttonIsDown c 0) then { c with currentState := State.SET_HOUR } else c
    | State.SET_HOUR => { c with clock := adjustTime c.clock (60 * 60) }
    | State.SET_MINUTE =>
        if minute t = 59 then { c with clock := adjustTime c.clock (-59 * 60) }
        else { c with clock := adjustTime c.clock 60 }
    | State.SET_SECOND =>
        if second t = 59 then { c with clock := adjustTime c.clock (-59) }
        else { c with clock := adjustTime c.clock 1 }
  else c

/-- The heater block at the end of `loop()`: the three `setSwitch` calls
guarded as in the source. `armed`, `cold`, `hot` and `heating` are the
local variables computed earlier in the pass. -/
def heaterDecision (c : Ctl) (armed cold hot heating : Bool) : Ctl :=
  if hot || !armed || !(decide (c.currentState = State.START)) then
    { c with switchState := false }
  else if decide (c.currentState = State.START) && armed && cold then
    { c with switchState := true }
  else if decide (c.currentState = State.START) && armed && !hot then
    { c with switchState := heating }
  else c

/-- The status word the display block of `loop()` prints (second line,
after the time), chosen by the source's if/else chain from the values in
scope at that point. Strings are as printed, padded to seven columns. -/
def statusWord (heating : Bool) (st : State) (cold armed hot : Bool) : String :=
  if heating then "HEATING"
  else if st = State.ENTER_SET then "SETUP  "
  else if cold && armed then "HEAT   "
  else if hot then "TOO HOT"
  else if armed then "TEMP OK"
  else if cold then "COLD   "
  else "STANDBY"

/-- One pass of `loop()`, in source order: sample the buttons, read the
sensor and the clock, render the display (the returned string is the
status word), handle the four button-edge blocks, then run the heater
decision. -/
def tick (c : Ctl) (i : Input) : Ctl × String :=
  let c1 := updateButtonStates c i.btn0 i.btn1
  let t := c1.clock + i.advance
  let c2 := { c1 with clock := t }
  let armed := shouldBeArmed t
  let cold := isTooCold i.rawTemp c1.targetTempF
  let hot := isTooHot i.rawTemp c1.targetTempF
  let heating := c1.switchState
  let status := statusWord heating c1.currentState cold armed hot
  let c3 := handleLeftDown c2
  let c4 := handleLeftUp c3
  let c5 := handleRightDown c4
  let c6 := handleRightUp c5 t
  let c7 := heaterDecision c6 armed cold hot heating
  (c7, status)

/-- The state after one pass of `loop()`. -/
def stepC (c : Ctl) (i : Input) : Ctl := (tick c i).1

/-- The status word rendered during one pass of `loop()`. -/
def tickStatus (c : Ctl) (i : Input) : String := (tick c i).2

/-- Iterating `loop()` over a sequence of per-pass inputs. -/
def run (c : Ctl) (L : List Input) : Ctl := L.foldl stepC c

/-- The time `now()` reports during a pass: the stored system time plus
however far the external clock source advanced it since the last pass. -/
def nowOf (c : Ctl) (i : Input) : Nat := c.clock + i.advance

/-- The state after the four button-handling blocks of a pass, before the
heater block. -/
def postButtons (c : Ctl) (i : Input) : Ctl :=
  handleRightUp
    (handleRightDown
      (handleLeftUp
        (handleLeftDown
          { updateButtonStates c i.btn0 i.btn1 with clock := nowOf c i })))
    (nowOf c i)

/-- The per-tick side condition of the hysteresis property: during the
pass the temperature is below the hot threshold, the schedule is armed,
and the mode in force at the heater decision (the mode after the pass's
button handling) is `STATE_START`; and this holds all along the run. -/
def holdsAlong : Ctl → List Input → Prop
  | _, [] => True
  | c, i :: L =>
      (isTooHot i.rawTemp c.targetTempF = false ∧
       shouldBeArmed (c.clock + i.advance) = true ∧
       (stepC c i).currentState = State.START) ∧
      holdsAlong (stepC c i) L

/-- Modelled from claim C3's words, for comparison with the source's
`statusWord`: the claim says the status word is "SETUP" in ANY setting
mode (`ENTER_SET`, `SET_HOUR`, `SET_MINUTE` or `SET_SECOND`), i.e. in
every mode other than `START`. -/
def claimC3StatusWord (heating : Bool) (st : State) (cold armed hot : Bool) : String :=
  if heating then "HEATING"
  else if st ≠ State.START then "SETUP  "
  else if cold && armed then "HEAT   "
  else if hot then "TOO HOT"
  else if armed then "TEMP OK"
  else if cold then "COLD   "
  else "STANDBY"

/-! ## Helper lemmas -/

/-- Concrete evaluation of the calibration at a cool sample. -/
lemma rawToF_600 : rawToF 600 = 52 := by norm_num [rawToF, round_eq]

/-- Concrete evaluation of the calibration at a mid sample. -/
lemma rawToF_650 : rawToF 650 = 61 := by norm_num [rawToF, round_eq]

/-- Concrete evaluation of the calibration at a hot sample. -/
lemma rawToF_700 : rawToF 700 = 69 := by norm_num [rawToF, round_eq]

/-- The heater block never changes the mode. -/
lemma heaterDecision_currentState (c : Ctl) (armed cold hot heating : Bool) :
    (heaterDecision c armed cold hot heating).currentState = c.currentState := by
  unfold heaterDecision
  repeat' split
  all_goals rfl

/-- The heater block never changes the setpoint. -/
lemma heaterDecision_targetTempF (c : Ctl) (armed cold hot heating : Bool) :
    (heaterDecision c armed cold hot heating).targetTempF = c.targetTempF := by
  unfold heaterDecision
  repeat' split
  all_goals rfl

/-- The heater block never changes the clock. -/
lemma heaterDecision_clock (c : Ctl) (armed cold hot heating : Bool) :
    (heaterDecision c armed cold hot heating).clock = c.clock := by
  unfold heaterDecision
  repeat' split
  all_goals rfl

/-- What the heater block writes to the relay: off when hot, disarmed or
mid-adjustment; on when cold; otherwise the held `heating` value. -/
lemma heaterDecision_switchState (c : Ctl) (armed cold hot heating : Bool) :
    (heaterDecision c armed cold hot heating).switchState =
      if hot || !armed || !(decide (c.currentState = State.START)) then false
      else if cold then true
      else heating := by
  by_cases h : c.currentState = State.START <;>
    cases armed <;> cases cold <;> cases hot <;>
    simp [heaterDecision, h]

/-- One pass of `loop()`, decomposed into the button-handling part and
the heater block, with the status word read off the pre-pass state. -/
lemma tick_eq (c : Ctl) (i : Input) :
    tick c i =
      (heaterDecision (postButtons c i) (shouldBeArmed (nowOf c i))
          (isTooCold i.rawTemp c.targetTempF) (isTooHot i.rawTemp c.targetTempF)
          c.switchState,
        statusWord c.switchState c.currentState
          (isTooCold i.rawTemp c.targetTempF) (shouldBeArmed (nowOf c i))
          (isTooHot i.rawTemp c.targetTempF)) := rfl

/-- The mode after a pass is the mode after its button handling. -/
lemma stepC_currentState_eq (c : Ctl) (i : Input) :
    (stepC c i).currentState = (postButtons c i).currentState := by
  show (tick c i).1.currentState = _
  rw [tick_eq]
  exact heaterDecision_currentState ..

/-- The relay state after one pass of `loop()`, as a single equation:
off when the pass's `hot`, `!armed` or post-button-handling mode says so,
on when `cold`, and otherwise the value held from the previous pass. -/
lemma stepC_switchState_eq (c : Ctl) (i : Input) :
    (stepC c i).switchState =
      if isTooHot i.rawTemp c.targetTempF || !(shouldBeArmed (c.clock + i.advance))
          || !(decide ((stepC c i).currentState = State.START)) then false
      else if isTooCold i.rawTemp c.targetTempF then true
      else c.switchState := by
  rw [stepC_currentState_eq]
  show (tick c i).1.switchState = _
  rw [tick_eq]
  exact heaterDecision_switchState ..

/-- Concrete evaluation of the calibration at an in-band sample. -/
lemma rawToF_676 : rawToF 676 = 65 := by norm_num [rawToF, round_eq]

/-- The setpoint after a pass is the setpoint after its button handling. -/
lemma stepC_targetTempF_eq (c : Ctl) (i : Input) :
    (stepC c i).targetTempF = (postButtons c i).targetTempF := by
  show (tick c i).1.targetTempF = _
  rw [tick_eq]
  exact heaterDecision_targetTempF ..

/-- The clock after a pass is the clock after its button handling. -/
lemma stepC_clock_eq (c : Ctl) (i : Input) :
    (stepC c i).clock = (postButtons c i).clock := by
  show (tick c i).1.clock = _
  rw [tick_eq]
  exact heaterDecision_clock ..

/-! ## C1: per-tick heater decision policy -/

/-- C1: on every pass, the relay command follows the source's priority
policy, first match wins: if `hot` (calibrated temperature at or above
`target + tempToleranceUp`), or not armed (hour outside
`[startHour, endHour)`), or the mode in force at the heater block is not
`STATE_START`, the relay is commanded off; otherwise if `cold`
(temperature at or below `target - tempToleranceDown`) it is commanded
on; otherwise the previous pass's relay value is written back
unchanged. -/
theorem C1_heater_priority (c : Ctl) (i : Input) :
    (isTooHot i.rawTemp c.targetTempF = true ∨
        shouldBeArmed (c.clock + i.advance) = false ∨
        (stepC c i).currentState ≠ State.START →
      (stepC c i).switchState = false) ∧
    (isTooHot i.rawTemp c.targetTempF = false →
      shouldBeArmed (c.clock + i.advance) = true →
      (stepC c i).currentState = State.START →
      isTooCold i.rawTemp c.targetTempF = true →
      (stepC c i).switchState = true) ∧
    (isTooHot i.rawTemp c.targetTempF = false →
      shouldBeArmed (c.clock + i.advance) = true →
      (stepC c i).currentState = State.START →
      isTooCold i.rawTemp c.targetTempF = false →
      (stepC c i).switchState = c.switchState) := by
  rw [stepC_switchState_eq]
  refine ⟨?_, ?_, ?_⟩
  · rintro (h | h | h) <;> simp [h]
  · intro h1 h2 h3 h4
    simp [h1, h2, h3, h4]
  · intro h1 h2 h3 h4
    simp [h1, h2, h3, h4]

/-- C1 witness: an armed, cold pass in `STATE_START` (10:00, setpoint 65,
sample 600 ≈ 52 degrees) commands the relay on. -/
theorem C1_heater_priority_witness :
    (stepC ⟨State.START, 65, false, false, false, false, false, 36000⟩
        ⟨false, false, 600, 0⟩).switchState = true :=
  (C1_heater_priority _ _).2.1
    (by simp [isTooHot, rawToF_600, tempToleranceUp])
    (by decide)
    (by rw [stepC_currentState_eq]; decide)
    (by simp [isTooCold, rawToF_600, tempToleranceDown])

/-! ## C2: hysteresis across a run of ticks -/

/-- C2: once the relay is on it stays on over every run of passes whose
every tick is below the hot threshold, armed, and in `STATE_START` at the
heater block, however the temperature moves inside the band; and on any
pass that is hot, disarmed, or out of `STATE_START` at the heater block,
the relay is commanded off on that very pass. -/
theorem C2_hysteresis (c : Ctl) (L : List Input) (i : Input) :
    (c.switchState = true → holdsAlong c L → (run c L).switchState = true) ∧
    (isTooHot i.rawTemp c.targetTempF = true ∨
        shouldBeArmed (c.clock + i.advance) = false ∨
        (stepC c i).currentState ≠ State.START →
      (stepC c i).switchState = false) := by
  constructor
  · induction L generalizing c with
    | nil =>
        intro hsw _
        simpa [run] using hsw
    | cons j M ih =>
        intro hsw hal
        obtain ⟨⟨hh, ha, hs⟩, htail⟩ := hal
        have hstep : (stepC c j).switchState = true := by
          rw [stepC_switchState_eq, hh, ha, hs]
          cases hc : isTooCold j.rawTemp c.targetTempF <;> simp [hc, hsw]
        exact ih (stepC c j) hstep htail
  · intro h
    rw [stepC_switchState_eq]
    rcases h with h | h | h <;> simp [h]

/-- C2 witness: with the relay on, setpoint 65 and the schedule armed, a
pass at 65 degrees (in the dead band) and a pass at 61 degrees (cold)
both keep the relay on; and a hot pass (69 degrees) switches it off at
once. -/
theorem C2_hysteresis_witness :
    (run ⟨State.START, 65, false, false, false, false, true, 36000⟩
        [⟨false, false, 676, 0⟩, ⟨false, false, 650, 0⟩]).switchState = true ∧
    (stepC ⟨State.START, 65, false, false, false, false, true, 36000⟩
        ⟨false, false, 700, 0⟩).switchState = false := by
  have e1 : stepC ⟨State.START, 65, false, false, false, false, true, 36000⟩
      ⟨false, false, 676, 0⟩ = ⟨State.START, 65, false, false, false, false, true, 36000⟩ := by
    simp [stepC, tick, updateButtonStates, handleLeftDown, handleLeftUp,
      handleRightDown, handleRightUp, heaterDecision, singleButtonDown,
      singleButtonUp, buttonIsDown, buttonNew, buttonLast, isTooCold, isTooHot,
      shouldBeArmed, hour, rawToF_676, tempToleranceUp, tempToleranceDown,
      startHour, endHour]
  have e2 : stepC ⟨State.START, 65, false, false, false, false, true, 36000⟩
      ⟨false, false, 650, 0⟩ = ⟨State.START, 65, false, false, false, false, true, 36000⟩ := by
    simp [stepC, tick, updateButtonStates, handleLeftDown, handleLeftUp,
      handleRightDown, handleRightUp, heaterDecision, singleButtonDown,
      singleButtonUp, buttonIsDown, buttonNew, buttonLast, isTooCold, isTooHot,
      shouldBeArmed, hour, rawToF_650, tempToleranceUp, tempToleranceDown,
      startHour, endHour]
  refine ⟨(C2_hysteresis _ [⟨false, false, 676, 0⟩, ⟨false, false, 650, 0⟩]
      ⟨false, false, 700, 0⟩).1 rfl ?_,
    (C2_hysteresis _ [] ⟨false, false, 700, 0⟩).2
      (Or.inl (by simp [isTooHot, rawToF_700, tempToleranceUp]))⟩
  simp [holdsAlong, e1, e2, isTooHot, rawToF_676, rawToF_650,
    tempToleranceUp, shouldBeArmed, hour, startHour, endHour]

/-- Accessor equation for the left button's fresh sample. -/
lemma buttonNew_zero (c : Ctl) : buttonNew c 0 = c.buttonNew0 := rfl

/-- Accessor equation for the right button's fresh sample. -/
lemma buttonNew_one (c : Ctl) : buttonNew c 1 = c.buttonNew1 := rfl

/-- Accessor equation for the left button's previous sample. -/
lemma buttonLast_zero (c : Ctl) : buttonLast c 0 = c.buttonLast0 := rfl

/-- Accessor equation for the right button's previous sample. -/
lemma buttonLast_one (c : Ctl) : buttonLast c 1 = c.buttonLast1 := rfl

/-! ### Field-preservation lemmas for the four button-handling blocks -/

/-- The left-press block only ever writes the mode. -/
lemma handleLeftDown_fields (c : Ctl) :
    (handleLeftDown c).targetTempF = c.targetTempF ∧
    (handleLeftDown c).switchState = c.switchState ∧
    (handleLeftDown c).clock = c.clock ∧
    (handleLeftDown c).buttonLast0 = c.buttonLast0 ∧
    (handleLeftDown c).buttonLast1 = c.buttonLast1 ∧
    (handleLeftDown c).buttonNew0 = c.buttonNew0 ∧
    (handleLeftDown c).buttonNew1 = c.buttonNew1 := by
  unfold handleLeftDown
  repeat' split
  all_goals simp

/-- The left-release block writes only the mode and the setpoint. -/
lemma handleLeftUp_fields (c : Ctl) :
    (handleLeftUp c).switchState = c.switchState ∧
    (handleLeftUp c).clock = c.clock ∧
    (handleLeftUp c).buttonLast0 = c.buttonLast0 ∧
    (handleLeftUp c).buttonLast1 = c.buttonLast1 ∧
    (handleLeftUp c).buttonNew0 = c.buttonNew0 ∧
    (handleLeftUp c).buttonNew1 = c.buttonNew1 := by
  unfold handleLeftUp
  repeat' split
  all_goals simp

/-- The right-press block only ever writes the mode. -/
lemma handleRightDown_fields (c : Ctl) :
    (handleRightDown c).targetTempF = c.targetTempF ∧
    (handleRightDown c).switchState = c.switchState ∧
    (handleRightDown c).clock = c.clock ∧
    (handleRightDown c).buttonLast0 = c.buttonLast0 ∧
    (handleRightDown c).buttonLast1 = c.buttonLast1 ∧
    (handleRightDown c).buttonNew0 = c.buttonNew0 ∧
    (handleRightDown c).buttonNew1 = c.buttonNew1 := by
  unfold handleRightDown
  repeat' split
  all_goals simp

/-- The right-release block writes only the mode, the setpoint and the
clock. -/
lemma handleRightUp_fields (c : Ctl) (t : Nat) :
    (handleRightUp c t).switchState = c.switchState ∧
    (handleRightUp c t).buttonLast0 = c.buttonLast0 ∧
    (handleRightUp c t).buttonLast1 = c.buttonLast1 ∧
    (handleRightUp c t).buttonNew0 = c.buttonNew0 ∧
    (handleRightUp c t).buttonNew1 = c.buttonNew1 := by
  unfold handleRightUp
  repeat' split
  all_goals simp

/-! ### Characterization of each block's writes -/

/-- The left-press block: `STATE_ENTER_SET` exactly on a left press edge
in `STATE_START` with the right button held. -/
lemma handleLeftDown_currentState (c : Ctl) :
    (handleLeftDown c).currentState =
      if singleButtonDown c 0 && buttonIsDown c 1 && decide (c.currentState = State.START)
      then State.ENTER_SET else c.currentState := by
  obtain ⟨st, tg, l0, l1, n0, n1, sw, ck⟩ := c
  cases st <;> cases l0 <;> cases n0 <;> cases n1 <;>
    simp [handleLeftDown, singleButtonDown, buttonIsDown, buttonNew, buttonLast]

/-- The left-release block's mode write. -/
lemma handleLeftUp_currentState (c : Ctl) :
    (handleLeftUp c).currentState =
      if singleButtonUp c 0 then
        match c.currentState with
        | State.START => State.START
        | State.ENTER_SET =>
            if buttonIsDown c 1 then State.ENTER_SET else State.SET_HOUR
        | State.SET_HOUR => State.SET_MINUTE
        | State.SET_MINUTE => State.SET_SECOND
        | State.SET_SECOND => State.START
      else c.currentState := by
  obtain ⟨st, tg, l0, l1, n0, n1, sw, ck⟩ := c
  cases st <;> cases l0 <;> cases n0 <;> cases n1 <;>
    simp [handleLeftUp, singleButtonUp, buttonIsDown, buttonNew, buttonLast] <;>
    split <;> simp

/-- The left-release block's setpoint write: increment, clamped at
`targetTempMax`, exactly on a left release edge in `STATE_START`. -/
lemma handleLeftUp_targetTempF (c : Ctl) :
    (handleLeftUp c).targetTempF =
      if singleButtonUp c 0 && decide (c.currentState = State.START) &&
          decide (c.targetTempF < targetTempMax)
      then c.targetTempF + 1 else c.targetTempF := by
  obtain ⟨st, tg, l0, l1, n0, n1, sw, ck⟩ := c
  cases st <;> cases l0 <;> cases n0 <;>
    simp [handleLeftUp, singleButtonUp, buttonNew, buttonLast] <;>
    split <;> simp_all

/-- The right-press block: `STATE_ENTER_SET` exactly on a right press
edge in `STATE_START` with the left button held. -/
lemma handleRightDown_currentState (c : Ctl) :
    (handleRightDown c).currentState =
      if singleButtonDown c 1 && buttonIsDown c 0 && decide (c.currentState = State.START)
      then State.ENTER_SET else c.currentState := by
  obtain ⟨st, tg, l0, l1, n0, n1, sw, ck⟩ := c
  cases st <;> cases l1 <;> cases n1 <;> cases n0 <;>
    simp [handleRightDown, singleButtonDown, buttonIsDown, buttonNew, buttonLast]

/-- The right-release block's mode write: `STATE_SET_HOUR` exactly on a
right release edge in `STATE_ENTER_SET` with the left button up. -/
lemma handleRightUp_currentState (c : Ctl) (t : Nat) :
    (handleRightUp c t).currentState =
      if singleButtonUp c 1 && decide (c.currentState = State.ENTER_SET) &&
          !(buttonIsDown c 0)
      then State.SET_HOUR else c.currentState := by
  obtain ⟨st, tg, l0, l1, n0, n1, sw, ck⟩ := c
  cases st <;> cases l1 <;> cases n1 <;> cases n0 <;>
    simp [handleRightUp, singleButtonUp, buttonIsDown, buttonNew, buttonLast] <;>
    split <;> simp

/-- The right-release block's setpoint write: decrement, clamped at
`targetTempMin`, exactly on a right release edge in `STATE_START`. -/
lemma handleRightUp_targetTempF (c : Ctl) (t : Nat) :
    (handleRightUp c t).targetTempF =
      if singleButtonUp c 1 && decide (c.currentState = State.START) &&
          decide (targetTempMin < c.targetTempF)
      then c.targetTempF - 1 else c.targetTempF := by
  obtain ⟨st, tg, l0, l1, n0, n1, sw, ck⟩ := c
  cases st <;> cases l1 <;> cases n1 <;>
    simp [handleRightUp, singleButtonUp, buttonNew, buttonLast] <;>
    split <;> simp_all

/-- The right-release block's clock write: the four `adjustTime` calls of
the source, keyed on the mode and the rollover tests on `t`. -/
lemma handleRightUp_clock (c : Ctl) (t : Nat) :
    (handleRightUp c t).clock =
      if singleButtonUp c 1 then
        match c.currentState with
        | State.START => c.clock
        | State.ENTER_SET => c.clock
        | State.SET_HOUR => adjustTime c.clock (60 * 60)
        | State.SET_MINUTE =>
            if minute t = 59 then adjustTime c.clock (-59 * 60)
            else adjustTime c.clock 60
        | State.SET_SECOND =>
            if second t = 59 then adjustTime c.clock (-59)
            else adjustTime c.clock 1
      else c.clock := by
  obtain ⟨st, tg, l0, l1, n0, n1, sw, ck⟩ := c
  cases st <;> cases l1 <;> cases n1 <;>
    simp [handleRightUp, singleButtonUp, buttonNew, buttonLast] <;>
    split <;> simp_all

/-! ## C7: debouncer edge events -/

/-- C7: for every prior debouncer state and every pair of fresh raw samples,
press and release edges of the same button are mutually exclusive within a
tick; after `updateButtonStates` a press (release) edge is reported exactly
when the fresh sample differs from the previous tick's sample in the
corresponding direction; and sampling the same raw levels again on the next
tick yields no edge at all, so a held (or idle) button produces an edge only
on the tick of the physical transition. -/
theorem C7_debouncer_edges (c : Ctl) (b0 b1 : Bool) (n : Nat) :
    (singleButtonDown c n && singleButtonUp c n) = false ∧
    singleButtonDown (updateButtonStates c b0 b1) 0 = (b0 && !c.buttonNew0) ∧
    singleButtonUp (updateButtonStates c b0 b1) 0 = (!b0 && c.buttonNew0) ∧
    singleButtonDown (updateButtonStates c b0 b1) 1 = (b1 && !c.buttonNew1) ∧
    singleButtonUp (updateButtonStates c b0 b1) 1 = (!b1 && c.buttonNew1) ∧
    singleButtonDown (updateButtonStates (updateButtonStates c b0 b1) b0 b1) 0 = false ∧
    singleButtonUp (updateButtonStates (updateButtonStates c b0 b1) b0 b1) 0 = false ∧
    singleButtonDown (updateButtonStates (updateButtonStates c b0 b1) b0 b1) 1 = false ∧
    singleButtonUp (updateButtonStates (updateButtonStates c b0 b1) b0 b1) 1 = false := by
  refine ⟨?_, ?_, ?_, ?_, ?_, ?_, ?_, ?_, ?_⟩ <;>
    first
    | (match n with
       | 0 => cases h : c.buttonNew0 <;>
           simp [singleButtonDown, singleButtonUp, buttonNew, buttonLast, h]
       | Nat.succ m => cases h : c.buttonNew1 <;>
           simp [singleButtonDown, singleButtonUp, buttonNew, buttonLast, h])
    | (cases b0 <;> cases b1 <;>
        simp [singleButtonDown, singleButtonUp, buttonNew, buttonLast,
          updateButtonStates])

/-! ## C4: which edges drive mode transitions -/

/-- Projections commute with `if` on control states. -/
lemma ite_currentState (P : Prop) [Decidable P] (a b : Ctl) :
    (if P then a else b).currentState = if P then a.currentState else b.currentState := by
  split <;> rfl

/-- C4 counterexample: the claim says the mode changes only on LEFT
release edges (with RIGHT edges excepted only inside the `ENTER_SET`
gesture).  But with the right button held in `STATE_START`, a left PRESS
edge changes the mode to `STATE_ENTER_SET` on a pass with no release
edge on either button. -/
theorem C4_counterexample :
    (stepC ⟨State.START, 65, false, false, false, true, false, 36000⟩
        ⟨true, true, 676, 0⟩).currentState ≠
      (⟨State.START, 65, false, false, false, true, false, 36000⟩ : Ctl).currentState ∧
    singleButtonUp
      (updateButtonStates ⟨State.START, 65, false, false, false, true, false, 36000⟩
        true true) 0 = false ∧
    singleButtonUp
      (updateButtonStates ⟨State.START, 65, false, false, false, true, false, 36000⟩
        true true) 1 = false := by
  refine ⟨?_, by decide, by decide⟩
  rw [stepC_currentState_eq]
  decide

/-- C4 (amended): every mode change of a pass is one of: entry into
`STATE_ENTER_SET` from `STATE_START` on the press edge of either button
while the other is held; exit from `STATE_ENTER_SET` to `STATE_SET_HOUR`
on the release edge (of either button) that leaves both buttons up; or a
step of the cyclic order `SET_HOUR → SET_MINUTE → SET_SECOND → START` on
a left release edge.  In particular right edges never change the mode
outside the `ENTER_SET` gesture. -/
theorem C4_mode_transitions (c : Ctl) (i : Input) :
    (stepC c i).currentState ≠ c.currentState →
      (c.currentState = State.START ∧ (stepC c i).currentState = State.ENTER_SET ∧
        ((i.btn0 && !c.buttonNew0 && i.btn1) = true ∨
         (i.btn1 && !c.buttonNew1 && i.btn0) = true)) ∨
      (c.currentState = State.ENTER_SET ∧ (stepC c i).currentState = State.SET_HOUR ∧
        ((!i.btn0 && c.buttonNew0 && !i.btn1) = true ∨
         (!i.btn1 && c.buttonNew1 && !i.btn0) = true)) ∨
      (c.currentState = State.SET_HOUR ∧ (stepC c i).currentState = State.SET_MINUTE ∧
        (!i.btn0 && c.buttonNew0) = true) ∨
      (c.currentState = State.SET_MINUTE ∧ (stepC c i).currentState = State.SET_SECOND ∧
        (!i.btn0 && c.buttonNew0) = true) ∨
      (c.currentState = State.SET_SECOND ∧ (stepC c i).currentState = State.START ∧
        (!i.btn0 && c.buttonNew0) = true) := by
  rw [stepC_currentState_eq]
  simp only [postButtons]
  rw [handleRightUp_currentState, handleRightDown_currentState,
    handleLeftUp_currentState, handleLeftDown_currentState]
  simp only [singleButtonUp, singleButtonDown, buttonIsDown,
    buttonNew_zero, buttonNew_one, buttonLast_zero, buttonLast_one,
    handleLeftDown_fields, handleLeftUp_fields, handleRightDown_fields,
    handleRightUp_fields, updateButtonStates]
  obtain ⟨st, tg, l0, l1, n0, n1, sw, ck⟩ := c
  obtain ⟨b0, b1, raw, adv⟩ := i
  cases st <;> cases n0 <;> cases n1 <;> cases b0 <;> cases b1 <;> simp_all

/-- C4 witness: in `STATE_SET_HOUR`, a pass with a left release edge
moves the mode to `STATE_SET_MINUTE`, and the transition satisfies the
characterization. -/
theorem C4_mode_transitions_witness :
    (⟨State.SET_HOUR, 65, false, false, true, false, false, 36000⟩ : Ctl).currentState =
        State.SET_HOUR ∧
    (stepC ⟨State.SET_HOUR, 65, false, false, true, false, false, 36000⟩
        ⟨false, false, 676, 0⟩).currentState = State.SET_MINUTE := by
  have h := C4_mode_transitions
    ⟨State.SET_HOUR, 65, false, false, true, false, false, 36000⟩
    ⟨false, false, 676, 0⟩
    (by rw [stepC_currentState_eq]; decide)
  refine ⟨rfl, ?_⟩
  rcases h with ⟨h1, _, _⟩ | ⟨h1, _, _⟩ | ⟨_, h2, _⟩ | ⟨h1, _, _⟩ | ⟨h1, _, _⟩ <;>
    first
      | exact h2
      | (exact absurd h1 (by decide))

/-! ## C6: setpoint edits are release-driven, clamped to [60, 80] -/

/-- C6: the setpoint is mutated only on release edges and only while the
mode at the handling block is `STATE_START`: a pass with no release edge
leaves it unchanged; in `STATE_START` a left release alone increments it,
clamped (not wrapped) at `targetTempMax = 80`; a right release alone
decrements it, clamped at `targetTempMin = 60`; a pass that starts and
ends outside `STATE_START` leaves it unchanged; and the range
`[targetTempMin, targetTempMax]` is invariant. -/
theorem C6_target_clamped (c : Ctl) (i : Input) :
    ((!i.btn0 && c.buttonNew0) = false → (!i.btn1 && c.buttonNew1) = false →
      (stepC c i).targetTempF = c.targetTempF) ∧
    (c.currentState = State.START → (!i.btn0 && c.buttonNew0) = true →
      (!i.btn1 && c.buttonNew1) = false →
      (stepC c i).targetTempF =
        if c.targetTempF < targetTempMax then c.targetTempF + 1 else c.targetTempF) ∧
    (c.currentState = State.START → (!i.btn1 && c.buttonNew1) = true →
      (!i.btn0 && c.buttonNew0) = false →
      (stepC c i).targetTempF =
        if targetTempMin < c.targetTempF then c.targetTempF - 1 else c.targetTempF) ∧
    (c.currentState ≠ State.START → (stepC c i).currentState ≠ State.START →
      (stepC c i).targetTempF = c.targetTempF) ∧
    (targetTempMin ≤ c.targetTempF → c.targetTempF ≤ targetTempMax →
      targetTempMin ≤ (stepC c i).targetTempF ∧
        (stepC c i).targetTempF ≤ targetTempMax) := by
  have hchar : (stepC c i).targetTempF = (postButtons c i).targetTempF :=
    stepC_targetTempF_eq c i
  have hmode : (stepC c i).currentState = (postButtons c i).currentState :=
    stepC_currentState_eq c i
  rw [hchar, hmode]
  simp only [postButtons, handleRightUp_targetTempF, handleRightUp_currentState,
    handleRightDown_currentState, handleRightDown_fields, handleLeftUp_targetTempF,
    handleLeftUp_currentState, handleLeftUp_fields, handleLeftDown_currentState,
    handleLeftDown_fields, handleRightUp_fields, singleButtonUp, singleButtonDown,
    buttonIsDown, buttonNew_zero, buttonNew_one, buttonLast_zero, buttonLast_one,
    updateButtonStates]
  obtain ⟨st, tg, l0, l1, n0, n1, sw, ck⟩ := c
  obtain ⟨b0, b1, raw, adv⟩ := i
  cases st <;> cases n0 <;> cases n1 <;> cases b0 <;> cases b1 <;>
    refine ⟨?_, ?_, ?_, ?_, ?_⟩ <;>
    simp_all <;> split_ifs <;> omega

/-- C6 witness: in `STATE_START` at the max setpoint 80, a pass with a
left release edge leaves the setpoint at 80 (clamp, not wrap). -/
theorem C6_target_clamped_witness :
    (stepC ⟨State.START, 80, false, false, true, false, false, 36000⟩
        ⟨false, false, 676, 0⟩).targetTempF = 80 := by
  have h := (C6_target_clamped
    ⟨State.START, 80, false, false, true, false, false, 36000⟩
    ⟨false, false, 676, 0⟩).2.1 rfl (by decide) (by decide)
  simpa [targetTempMax] using h

/-! ## C5: clock adjustments in the SET states -/

/-- Arithmetic of the minute rollover: from minute 59, the −3540-second
adjustment lands on minute 0 with the hour unchanged. -/
lemma minute_rollover (t : Nat) (h : minute t = 59) (hlt : t < 2 ^ 32) :
    adjustTime t (-59 * 60) = t - 3540 ∧
    minute (t - 3540) = 0 ∧ hour (t - 3540) = hour t := by
  have h32 : ((2 : Int) ^ 32) = 4294967296 := by norm_num
  simp only [adjustTime, minute, hour, h32] at *
  refine ⟨?_, ?_, ?_⟩ <;> omega

/-- Arithmetic of the second rollover: from second 59, the −59-second
adjustment lands on second 0 with the minute unchanged. -/
lemma second_rollover (t : Nat) (h : second t = 59) (hlt : t < 2 ^ 32) :
    adjustTime t (-59) = t - 59 ∧
    second (t - 59) = 0 ∧ minute (t - 59) = minute t := by
  have h32 : ((2 : Int) ^ 32) = 4294967296 := by norm_num
  simp only [adjustTime, minute, second, h32] at *
  refine ⟨?_, ?_, ?_⟩ <;> omega

/-- The clock after a pass with a right release edge and no left release
edge, by the mode of the pass: `+3600` in `SET_HOUR`; `+60` in
`SET_MINUTE`, or `−3540` from minute 59; `+1` in `SET_SECOND`, or `−59`
from second 59. -/
lemma stepC_clock_adjust (c : Ctl) (i : Input)
    (hru : (!i.btn1 && c.buttonNew1) = true)
    (hlu : (!i.btn0 && c.buttonNew0) = false) :
    (c.currentState = State.SET_HOUR →
      (stepC c i).clock = adjustTime (c.clock + i.advance) (60 * 60)) ∧
    (c.currentState = State.SET_MINUTE → minute (c.clock + i.advance) = 59 →
      (stepC c i).clock = adjustTime (c.clock + i.advance) (-59 * 60)) ∧
    (c.currentState = State.SET_MINUTE → minute (c.clock + i.advance) ≠ 59 →
      (stepC c i).clock = adjustTime (c.clock + i.advance) 60) ∧
    (c.currentState = State.SET_SECOND → second (c.clock + i.advance) = 59 →
      (stepC c i).clock = adjustTime (c.clock + i.advance) (-59)) ∧
    (c.currentState = State.SET_SECOND → second (c.clock + i.advance) ≠ 59 →
      (stepC c i).clock = adjustTime (c.clock + i.advance) 1) := by
  rw [stepC_clock_eq]
  simp only [postButtons, handleRightUp_clock, handleRightUp_currentState,
    handleRightDown_currentState, handleRightDown_fields, handleLeftUp_currentState,
    handleLeftUp_fields, handleLeftDown_currentState, handleLeftDown_fields,
    singleButtonUp, singleButtonDown, buttonIsDown, buttonNew_zero, buttonNew_one,
    buttonLast_zero, buttonLast_one, updateButtonStates, nowOf]
  obtain ⟨st, tg, l0, l1, n0, n1, sw, ck⟩ := c
  obtain ⟨b0, b1, raw, adv⟩ := i
  cases st <;> cases n0 <;> cases n1 <;> cases b0 <;> cases b1 <;>
    refine ⟨?_, ?_, ?_, ?_, ?_⟩ <;> simp_all

/-- C5: on a right release edge (with no left release on the same pass),
`SET_HOUR` issues +3600 seconds; `SET_MINUTE` issues +60 seconds, except
from minute 59 where it issues −3540 so the minute becomes 0 with the
hour unchanged; `SET_SECOND` issues +1 second, except from second 59
where it issues −59 so the second becomes 0 with the minute
unchanged. -/
theorem C5_clock_set_rollover (c : Ctl) (i : Input)
    (hru : (!i.btn1 && c.buttonNew1) = true)
    (hlu : (!i.btn0 && c.buttonNew0) = false)
    (hlt : c.clock + i.advance < 2 ^ 32) :
    (c.currentState = State.SET_HOUR →
      (stepC c i).clock = adjustTime (c.clock + i.advance) (60 * 60)) ∧
    (c.currentState = State.SET_MINUTE → minute (c.clock + i.advance) ≠ 59 →
      (stepC c i).clock = adjustTime (c.clock + i.advance) 60) ∧
    (c.currentState = State.SET_MINUTE → minute (c.clock + i.advance) = 59 →
      (stepC c i).clock = adjustTime (c.clock + i.advance) (-59 * 60) ∧
      minute ((stepC c i).clock) = 0 ∧
      hour ((stepC c i).clock) = hour (c.clock + i.advance)) ∧
    (c.currentState = State.SET_SECOND → second (c.clock + i.advance) ≠ 59 →
      (stepC c i).clock = adjustTime (c.clock + i.advance) 1) ∧
    (c.currentState = State.SET_SECOND → second (c.clock + i.advance) = 59 →
      (stepC c i).clock = adjustTime (c.clock + i.advance) (-59) ∧
      second ((stepC c i).clock) = 0 ∧
      minute ((stepC c i).clock) = minute (c.clock + i.advance)) := by
  obtain ⟨h1, h2, h3, h4, h5⟩ := stepC_clock_adjust c i hru hlu
  refine ⟨h1, h3, ?_, h5, ?_⟩
  · intro hs hm
    have hc := h2 hs hm
    have hr := minute_rollover (c.clock + i.advance) hm hlt
    rw [hc, hr.1]
    exact ⟨rfl, hr.2.1, hr.2.2⟩
  · intro hs hm
    have hc := h4 hs hm
    have hr := second_rollover (c.clock + i.advance) hm hlt
    rw [hc, hr.1]
    exact ⟨rfl, hr.2.1, hr.2.2⟩

/-- C5 witness: in `SET_MINUTE` at 10:59:30, a right release rolls the
minute over to 0 and keeps the hour at 10. -/
theorem C5_clock_set_rollover_witness :
    minute 39570 = 59 ∧
    (stepC ⟨State.SET_MINUTE, 65, false, false, false, true, false, 39570⟩
        ⟨false, false, 676, 0⟩).clock = 36030 ∧
    minute ((stepC ⟨State.SET_MINUTE, 65, false, false, false, true, false, 39570⟩
        ⟨false, false, 676, 0⟩).clock) = 0 ∧
    hour ((stepC ⟨State.SET_MINUTE, 65, false, false, false, true, false, 39570⟩
        ⟨false, false, 676, 0⟩).clock) = 10 := by
  have h := (C5_clock_set_rollover
    ⟨State.SET_MINUTE, 65, false, false, false, true, false, 39570⟩
    ⟨false, false, 676, 0⟩ (by decide) (by decide) (by decide)).2.2.1
    rfl (by decide)
  obtain ⟨ha, hb, hc⟩ := h
  refine ⟨by decide, ?_, hb, ?_⟩
  · rw [ha]; decide
  · rw [hc]; decide

/-! ## C9: simultaneous release in ENTER_SET also bumps the hour -/

/-- C9: if both buttons are released on the same pass while in
`STATE_ENTER_SET`, the left-release block advances the mode to
`STATE_SET_HOUR` first, and the right-release block, running after it,
then issues the `SET_HOUR` adjustment: the pass both enters `SET_HOUR`
and adds 3600 seconds to the clock. -/
theorem C9_simultaneous_release (c : Ctl) (i : Input)
    (hs : c.currentState = State.ENTER_SET)
    (h0 : c.buttonNew0 = true) (h1 : c.buttonNew1 = true)
    (hb0 : i.btn0 = false) (hb1 : i.btn1 = false) :
    (stepC c i).currentState = State.SET_HOUR ∧
    (stepC c i).clock = adjustTime (c.clock + i.advance) (60 * 60) := by
  rw [stepC_currentState_eq, stepC_clock_eq]
  simp only [postButtons, handleRightUp_clock, handleRightUp_currentState,
    handleRightDown_currentState, handleRightDown_fields, handleLeftUp_currentState,
    handleLeftUp_fields, handleLeftDown_currentState, handleLeftDown_fields,
    singleButtonUp, singleButtonDown, buttonIsDown, buttonNew_zero, buttonNew_one,
    buttonLast_zero, buttonLast_one, updateButtonStates, nowOf]
  obtain ⟨st, tg, l0, l1, n0, n1, sw, ck⟩ := c
  obtain ⟨b0, b1, raw, adv⟩ := i
  simp_all

/-- C9 witness: from `ENTER_SET` with both buttons held, releasing both
on one pass lands in `SET_HOUR` with the clock moved from 10:00:00 to
11:00:00. -/
theorem C9_simultaneous_release_witness :
    (stepC ⟨State.ENTER_SET, 65, false, false, true, true, false, 36000⟩
        ⟨false, false, 676, 0⟩).currentState = State.SET_HOUR ∧
    (stepC ⟨State.ENTER_SET, 65, false, false, true, true, false, 36000⟩
        ⟨false, false, 676, 0⟩).clock = adjustTime 36000 (60 * 60) :=
  C9_simultaneous_release _ _ rfl rfl rfl rfl rfl

/-! ## C3: the rendered status word -/

/-- C3 counterexample: the claim says "SETUP" is rendered in ANY setting
mode, but the source tests only `STATE_ENTER_SET`.  In `STATE_SET_HOUR`
with the relay off, a cold and armed pass renders "HEAT   ", while the
claim's chain (`claimC3StatusWord`) renders "SETUP  ". -/
theorem C3_counterexample :
    (⟨State.SET_HOUR, 65, false, false, false, false, false, 36000⟩ : Ctl).currentState ≠
        State.START ∧
    tickStatus ⟨State.SET_HOUR, 65, false, false, false, false, false, 36000⟩
        ⟨false, false, 650, 0⟩ = "HEAT   " ∧
    claimC3StatusWord false State.SET_HOUR
        (isTooCold 650 65) (shouldBeArmed 36000) (isTooHot 650 65) = "SETUP  " := by
  refine ⟨by decide, ?_, by simp [claimC3StatusWord]⟩
  show (tick _ _).2 = _
  rw [tick_eq]
  simp [statusWord, isTooCold, isTooHot, rawToF_650, shouldBeArmed, hour, nowOf,
    tempToleranceUp, tempToleranceDown, startHour, endHour]

/-- C3 (amended): on every pass the rendered status word follows the
source's priority chain over the values in scope at the display block —
the relay state held from the previous pass, the pre-button-handling
mode, and this pass's `cold`/`armed`/`hot` — with "SETUP" rendered only
in `STATE_ENTER_SET`, not in the other setting modes. -/
theorem C3_status_priority (c : Ctl) (i : Input) :
    tickStatus c i =
      if c.switchState then "HEATING"
      else if c.currentState = State.ENTER_SET then "SETUP  "
      else if isTooCold i.rawTemp c.targetTempF &&
          shouldBeArmed (c.clock + i.advance) then "HEAT   "
      else if isTooHot i.rawTemp c.targetTempF then "TOO HOT"
      else if shouldBeArmed (c.clock + i.advance) then "TEMP OK"
      else if isTooCold i.rawTemp c.targetTempF then "COLD   "
      else "STANDBY" := by
  show (tick c i).2 = _
  rw [tick_eq]
  simp only [statusWord, nowOf]

/-! ## C8: the display is rendered before the heater decision -/

/-- C8 counterexample: the claim says the frame is rendered after the
pass's actuator command.  On a cold, armed `STATE_START` pass with the
relay previously off, the pass turns the relay ON, yet the rendered word
is "HEAT   "; a frame reflecting the pass's resulting actuator and mode
state would read "HEATING". -/
theorem C8_counterexample :
    tickStatus ⟨State.START, 65, false, false, false, false, false, 39600⟩
        ⟨false, false, 650, 0⟩ = "HEAT   " ∧
    (stepC ⟨State.START, 65, false, false, false, false, false, 39600⟩
        ⟨false, false, 650, 0⟩).switchState = true ∧
    statusWord
      (stepC ⟨State.START, 65, false, false, false, false, false, 39600⟩
          ⟨false, false, 650, 0⟩).switchState
      (stepC ⟨State.START, 65, false, false, false, false, false, 39600⟩
          ⟨false, false, 650, 0⟩).currentState
      (isTooCold 650 65) (shouldBeArmed 39600) (isTooHot 650 65) = "HEATING" := by
  have hcs : (stepC ⟨State.START, 65, false, false, false, false, false, 39600⟩
      ⟨false, false, 650, 0⟩).currentState = State.START := by
    rw [stepC_currentState_eq]; decide
  have hsw : (stepC ⟨State.START, 65, false, false, false, false, false, 39600⟩
      ⟨false, false, 650, 0⟩).switchState = true := by
    rw [stepC_switchState_eq, hcs]
    simp [isTooCold, isTooHot, rawToF_650, shouldBeArmed, hour,
      tempToleranceUp, tempToleranceDown, startHour, endHour]
  refine ⟨?_, hsw, ?_⟩
  · show (tick _ _).2 = _
    rw [tick_eq]
    simp [statusWord, isTooCold, isTooHot, rawToF_650, shouldBeArmed, hour, nowOf,
      tempToleranceUp, tempToleranceDown, startHour, endHour]
  · rw [hsw]
    simp [statusWord]

/-- C8 (amended): the display block runs before the button handling and
the heater block, so the rendered status word of a pass is a function of
the pre-pass state only: the relay value held from the previous pass and
the pre-pass mode, together with this pass's sensor and schedule
flags. -/
theorem C8_display_before_actuation (c : Ctl) (i : Input) :
    tickStatus c i =
      statusWord c.switchState c.currentState
        (isTooCold i.rawTemp c.targetTempF)
        (shouldBeArmed (c.clock + i.advance))
        (isTooHot i.rawTemp c.targetTempF) := by
  show (tick c i).2 = _
  rw [tick_eq]
  simp only [nowOf]

/-! ## C10: the cold and hot thresholds are mutually exclusive -/

/-- C10: for every raw sensor sample and every setpoint, `isTooCold` and
`isTooHot` are never both true: the cold threshold `target - 2` lies
strictly below the hot threshold `target + 2`. -/
theorem C10_cold_hot_exclusive (rawTemp target : Int) :
    (isTooCold rawTemp target && isTooHot rawTemp target) = false := by
  simp only [isTooCold, isTooHot, tempToleranceDown, tempToleranceUp,
    Bool.and_eq_false_iff, decide_eq_false_iff_not, not_le]
  omega

end Thermoclock
